import Mathlib

/-!
Shallow embedding of the AI-Bookmark URL-analysis code paths.

Sources embedded here:
* services/geminiService.ts — the client-side fallback chain (`analyzeUrl`,
  `callFrontendGemini`, `createMockResponse`).
* the backend `server.js` of the analyze-url guide (src/unnamed/part_002) —
  `toAbsoluteUrl`, the /api/analyze-url handler: embeddability
  classification, image-candidate collection, result assembly, and the
  catch-block error translation.
* the backend `server.js` of the bookmarks guide (embedded after
  hooks/useBookmarkGrid.ts) — the /api/bookmarks POST handler: title and
  description extraction.
* components: AddBookmarkForm.handleSubmit (URL normalization) and
  LocalApp.addBookmark (pending insert / rollback).

JavaScript-level behaviour (truthiness of strings, `||` chains, `?.`,
`String.prototype.trim/startsWith/includes/split`, thrown exceptions,
axios resolve/reject) is modelled explicitly; the network, the HTML
parser query results and the model response are inputs to the embedded
functions, since they are the environment the code reads.
-/

namespace AIBookmark

/-! ### JavaScript string primitives -/

/-- JS `a || b` for strings where the empty string is falsy. -/
def jsOrStr (a b : String) : String := if a = "" then b else a

/-- JS `a || b` where `a` may be `undefined` (e.g. cheerio `.attr(...)`). -/
def jsOrOpt (a : Option String) (b : String) : String :=
  match a with
  | some s => jsOrStr s b
  | none => b

/-- JS `s.startsWith(p)`. -/
def jsStartsWith (s p : String) : Bool := List.isPrefixOf p.data s.data

/-- Executable check that `sub` occurs contiguously inside `l`. -/
def infixCheck (sub : List Char) : List Char → Bool
  | [] => sub.isEmpty
  | x :: xs => List.isPrefixOf sub (x :: xs) || infixCheck sub xs

/-- JS `s.includes(sub)`. -/
def jsIncludes (s sub : String) : Bool := infixCheck sub.data s.data

/-- JS `s.trim()` (ASCII whitespace suffices for the code under study). -/
def jsTrim (s : String) : String :=
  String.mk (((s.data.dropWhile Char.isWhitespace).reverse.dropWhile Char.isWhitespace).reverse)

/-- JS `s.toUpperCase()` (character map; the headers involved are ASCII). -/
def jsToUpper (s : String) : String := String.mk (s.data.map Char.toUpper)

/-- JS `s.toLowerCase()` (character map). -/
def jsToLower (s : String) : String := String.mk (s.data.map Char.toLower)

/-- Number of maximal runs of non-whitespace characters; `inWord` says
whether the previous character belonged to a run. -/
def countRuns : List Char → Bool → Nat
  | [], _ => 0
  | c :: cs, inWord =>
      if c.isWhitespace then countRuns cs false
      else (if inWord then 0 else 1) + countRuns cs true

/-- JS `s.trim().split(/\s+/).length`: splitting the empty string yields
one element, otherwise the number of maximal non-whitespace runs. -/
def jsWordCount (s : String) : Nat :=
  let t := jsTrim s
  if t = "" then 1 else countRuns t.data false

/-- Split a character list on a separator character. -/
def splitChar (sep : Char) (l : List Char) : List (List Char) :=
  l.foldr (fun c acc =>
    match acc with
    | [] => [[c]]
    | h :: t => if c = sep then [] :: h :: t else (c :: h) :: t) [[]]

/-- The apostrophe character, used inside CSP directive strings. -/
def sq : String := String.singleton (Char.ofNat 39)

/-- Characters `encodeURIComponent` leaves unescaped. -/
def uriUnreserved (c : Char) : Bool :=
  c.isAlphanum || c = '-' || c = '_' || c = '.' || c = '!' || c = '~' ||
  c = '*' || c = Char.ofNat 39 || c = '(' || c = ')'

/-- Upper-case hexadecimal digit of a value below 16. -/
def hexDigit (n : Nat) : Char :=
  if n < 10 then Char.ofNat (48 + n) else Char.ofNat (55 + n)

/-- UTF-8 bytes of a code point, as used by `encodeURIComponent`. -/
def utf8Bytes (n : Nat) : List Nat :=
  if n < 128 then [n]
  else if n < 2048 then [192 + n / 64, 128 + n % 64]
  else if n < 65536 then [224 + n / 4096, 128 + (n / 64) % 64, 128 + n % 64]
  else [240 + n / 262144, 128 + (n / 4096) % 64, 128 + (n / 64) % 64, 128 + n % 64]

/-- JS `encodeURIComponent`. -/
def encodeURIComponent (s : String) : String :=
  String.mk (s.data.flatMap (fun c =>
    if uriUnreserved c then [c]
    else (utf8Bytes c.toNat).flatMap (fun b => ['%', hexDigit (b / 16), hexDigit (b % 16)])))

/-! ### Facts about the string primitives -/

theorem str_data_append (a b : String) : (a ++ b).data = a.data ++ b.data := rfl

theorem append_ne_empty_left (a b : String) (h : a ≠ "") : a ++ b ≠ "" := by
  intro hc
  apply h
  have hd := congrArg String.data hc
  rw [str_data_append] at hd
  exact congrArg String.mk (List.append_eq_nil.mp hd).1

theorem jsStartsWith_append (p a b : String) (h : jsStartsWith a p = true) :
    jsStartsWith (a ++ b) p = true := by
  unfold jsStartsWith at *
  rw [str_data_append]
  rw [List.isPrefixOf_iff_prefix] at *
  exact h.trans (List.prefix_append _ _)

theorem length_dropWhile_le {α : Type} (p : α → Bool) (l : List α) :
    (l.dropWhile p).length ≤ l.length := by
  induction l with
  | nil => simp
  | cons x xs ih =>
      rw [List.dropWhile_cons]
      split
      · exact le_trans ih (Nat.le_succ _)
      · simp

theorem infixCheck_iff (sub l : List Char) : infixCheck sub l = true ↔ sub <:+: l := by
  induction l with
  | nil =>
      simp [infixCheck, List.isEmpty_iff]
  | cons x xs ih =>
      simp only [infixCheck, Bool.or_eq_true, ih, List.isPrefixOf_iff_prefix]
      exact (List.infix_cons_iff).symm

theorem jsTrim_length_le (s : String) : (jsTrim s).length ≤ s.length := by
  unfold jsTrim
  show (((s.data.dropWhile _).reverse.dropWhile _).reverse).length ≤ s.data.length
  rw [List.length_reverse]
  calc ((s.data.dropWhile Char.isWhitespace).reverse.dropWhile Char.isWhitespace).length
      ≤ (s.data.dropWhile Char.isWhitespace).reverse.length := length_dropWhile_le _ _
    _ = (s.data.dropWhile Char.isWhitespace).length := List.length_reverse _
    _ ≤ s.data.length := length_dropWhile_le _ _

theorem str_length_append (a b : String) : (a ++ b).length = a.length + b.length := by
  show (a ++ b).data.length = a.data.length + b.data.length
  rw [str_data_append, List.length_append]

/-! ### Data model (types.ts / spec section 3) -/

/-- The analysis record produced by every strategy: the fields of
`Omit Bookmark id createdAt notes` in types.ts. -/
structure AnalysisResult where
  url : String
  title : String
  description : String
  imageUrl : String
  tags : List String
  openInIframe : Bool
deriving Repr, DecidableEq

/-- The stored bookmark record (types.ts `Bookmark`). -/
structure Bookmark where
  id : String
  url : String
  title : String
  description : String
  imageUrl : String
  tags : List String
  notes : Option String
  createdAt : String
  openInIframe : Option Bool
  status : Option String
deriving Repr, DecidableEq

/-- The spec-section-3 invariants on an `AnalysisResult`: non-empty title
and description, 1..8 non-empty lowercase pairwise-distinct tags
(case-insensitively), and an absolute image URL. -/
def resultInvariants (r : AnalysisResult) : Prop :=
  r.title ≠ "" ∧ r.description ≠ "" ∧
  1 ≤ r.tags.length ∧ r.tags.length ≤ 8 ∧
  (r.tags.map jsToLower).Nodup ∧
  (∀ t ∈ r.tags, t ≠ "" ∧ jsToLower t = t) ∧
  (jsStartsWith r.imageUrl "http://" = true ∨ jsStartsWith r.imageUrl "https://" = true)

/-! ### services/geminiService.ts — the client-side fallback chain

`analyzeUrl` first checks `shouldUseMock` (no API key); otherwise it tries
the backend endpoint and, if that throws, falls back to
`callFrontendGemini`, which itself rethrows on any failure.  The network
and model outcomes are inputs: `Except.error` models a rejected
promise / thrown exception carrying its message. -/

/-- The JSON object the frontend Gemini schema requires
(`title`, `description`, `imageUrl`, `tags`). -/
structure ParsedFrontend where
  title : String
  description : String
  imageUrl : String
  tags : List String
deriving Repr, DecidableEq

/-- `createMockResponse` of geminiService.ts; `seed` models `Date.now()`. -/
def createMockResponse (url : String) (seed : Nat) : AnalysisResult :=
  { url := url
    title := "Mock Title for " ++ url
    description := "This is a mock description generated because the Gemini API key is not available. The AI would normally generate a detailed summary here."
    imageUrl := "https://picsum.photos/seed/" ++ toString seed ++ "/600/400"
    tags := ["mock", "sample-data", "placeholder"]
    openInIframe := true }

/-- `callFrontendGemini`: on any model/transport/parse failure the catch
block rethrows with a wrapped message; on success the parsed fields are
returned verbatim with `openInIframe := true`. -/
def callFrontendGemini (url : String) (modelOutcome : Except String ParsedFrontend) :
    Except String AnalysisResult :=
  match modelOutcome with
  | Except.error e => Except.error ("Frontend analysis failed: " ++ e)
  | Except.ok p =>
      Except.ok
        { url := url
          title := p.title
          description := p.description
          imageUrl := p.imageUrl
          tags := p.tags
          openInIframe := true }

/-- `analyzeUrl` of geminiService.ts.  `useMock` is `shouldUseMock`
(no API key configured); `backendOutcome` models the fetch of
/api/analyze-url together with `response.json()` and the
`!response.ok` throw; `frontendModelOutcome` models the direct Gemini
call of the fallback. -/
def analyzeUrl (useMock : Bool) (seed : Nat) (url : String)
    (backendOutcome : Except String AnalysisResult)
    (frontendModelOutcome : Except String ParsedFrontend) :
    Except String AnalysisResult :=
  if useMock then Except.ok (createMockResponse url seed)
  else
    match backendOutcome with
    | Except.ok data => Except.ok data
    | Except.error _ => callFrontendGemini url frontendModelOutcome

/-! ### The /api/analyze-url server (guide server.js, src/unnamed/part_002) -/

namespace AnalyzeServer

open AIBookmark

/-- The literal CSP substring the handler searches for: frame-ancestors
followed by a quoted none. -/
def faNone : String := "frame-ancestors " ++ sq ++ "none" ++ sq

/-- The literal CSP substring the handler searches for: frame-ancestors
followed by a quoted self. -/
def faSelf : String := "frame-ancestors " ++ sq ++ "self" ++ sq

/-- Step 2 of the handler: the embeddability classification over the two
consulted response headers, `none` modelling an absent header. -/
def classifyEmbeddability (xFrameOptions contentSecurityPolicy : Option String) : Bool :=
  let xfo := (xFrameOptions.map AIBookmark.jsToUpper).getD ""
  let csp := contentSecurityPolicy.getD ""
  let openInIframe := true
  let openInIframe := if xfo = "DENY" ∨ xfo = "SAMEORIGIN" then false else openInIframe
  let openInIframe :=
    if jsIncludes csp faNone || jsIncludes csp faSelf then false else openInIframe
  openInIframe

/-- The value of the frame-ancestors directive of a CSP header, read as
the spec reads it: the semicolon-separated directive named
frame-ancestors, with its value trimmed.  (Used only to state what the
spec claims; the handler itself never parses directives.) -/
def specFrameAncestorsValue (csp : String) : Option String :=
  ((((AIBookmark.splitChar ';' csp.data).map (fun d => AIBookmark.jsTrim (String.mk d))).filterMap
    (fun d =>
      if AIBookmark.jsStartsWith d "frame-ancestors" then
        some (AIBookmark.jsTrim (String.mk (d.data.drop "frame-ancestors".length)))
      else none))).head?

/-- `toAbsoluteUrl(baseUrl, relativeUrl)` of the server.  `relativeUrl`
is `none` when the cheerio attribute was `undefined`; `resolveRef`
models `new URL(rel, base).href`, returning `none` when the URL
constructor throws.  `Except.error ()` models a thrown TypeError: when
`relativeUrl` is `undefined`, the falsy guard is taken and the return
expression immediately calls `.startsWith` on `undefined`. -/
def toAbsoluteUrl (resolveRef : String → String → Option String)
    (baseUrl : String) (relativeUrl : Option String) : Except Unit (Option String) :=
  match relativeUrl with
  | none => Except.error ()
  | some rel =>
      if rel = "" || jsStartsWith rel "http" || jsStartsWith rel "//" then
        Except.ok (some (if jsStartsWith rel "//" then "https:" ++ rel else rel))
      else
        Except.ok (resolveRef baseUrl rel)

/-- Insertion into the `imageUrls` JS Set: order-preserving, ignoring
values already present. -/
def setAdd (l : List String) (s : String) : List String :=
  if s ∈ l then l else l ++ [s]

/-- The handler-local `addUrl`: resolve, then add only truthy results. -/
def addUrl (resolveRef : String → String → Option String) (url : String)
    (l : List String) (u : Option String) : Except Unit (List String) :=
  match toAbsoluteUrl resolveRef url u with
  | Except.error e => Except.error e
  | Except.ok none => Except.ok l
  | Except.ok (some s) => Except.ok (if s = "" then l else setAdd l s)

/-- Step 4 of the handler: collect og:image, twitter:image, then every
non-data-URI img src, and truncate to 20 (`uniqueImageUrls`).  Each img
src is `none` when the attribute is absent. -/
def collectImageUrls (resolveRef : String → String → Option String) (url : String)
    (ogImage twitterImage : Option String) (imgSrcs : List (Option String)) :
    Except Unit (List String) := do
  let l0 ← addUrl resolveRef url [] ogImage
  let l1 ← addUrl resolveRef url l0 twitterImage
  let l2 ← imgSrcs.foldlM (fun l src =>
    match src with
    | none => pure l
    | some s =>
        if s ≠ "" && !(jsStartsWith s "data:") then addUrl resolveRef url l (some s)
        else pure l) l1
  pure ((l2.filter (fun s => s ≠ "")).take 20)

/-- The deterministic placeholder image keyed by the request URL. -/
def picsumPlaceholder (url : String) : String :=
  "https://picsum.photos/seed/" ++ encodeURIComponent url ++ "/600/400"

/-- The object the Gemini schema requires of the model response
(`title`, `description`, `imageUrl`, `tags`). -/
structure ParsedModel where
  title : String
  description : String
  imageUrl : String
  tags : List String
deriving Repr, DecidableEq

/-- Step 8 of the handler: the final `result` object sent on success. -/
def assembleResult (url : String) (parsed : ParsedModel)
    (uniqueImageUrls : List String) (openInIframe : Bool) : AnalysisResult :=
  { url := url
    title := parsed.title
    description := parsed.description
    imageUrl :=
      jsOrStr parsed.imageUrl
        (match uniqueImageUrls with
         | [] => picsumPlaceholder url
         | u :: _ => u)
    tags := parsed.tags
    openInIframe := openInIframe }

/-! #### The fetch stage and the catch block -/

/-- What the network did for the one outbound GET. -/
inductive NetOutcome where
  | timeout
  | noResponse
  | response (status : Nat) (xFrameOptions contentSecurityPolicy : Option String) (html : String)
deriving Repr, DecidableEq

/-- The shape of the thrown error object the catch block inspects. -/
inductive JsError where
  | axiosResponse (status : Nat)
  | axiosNoResponse
  | generic (message : String)
deriving Repr, DecidableEq

/-- The `timeout` option the handler passes to axios.get. -/
def fetchTimeoutMs : Nat := 10000

/-- axios.get under its default `validateStatus`: a received response
resolves only for a 2xx status; other statuses reject with
`error.response` set; timeouts and connection failures reject with only
`error.request` set. -/
def axiosGet (o : NetOutcome) :
    Except JsError (Nat × (Option String × Option String) × String) :=
  match o with
  | NetOutcome.timeout => Except.error JsError.axiosNoResponse
  | NetOutcome.noResponse => Except.error JsError.axiosNoResponse
  | NetOutcome.response s xfo csp html =>
      if 200 ≤ s ∧ s < 300 then Except.ok (s, (xfo, csp), html)
      else Except.error (JsError.axiosResponse s)

/-- The catch block of the handler: status code and message chosen from
the shape of the thrown error (the response is sent as a JSON body with
a single error field holding the message). -/
def catchResponse (e : JsError) : Nat × String :=
  match e with
  | JsError.axiosResponse s =>
      (400, "Could not access this URL. The server responded with status: " ++ toString s ++
        ". The page may be private or no longer exist.")
  | JsError.axiosNoResponse =>
      (400, "This URL could not be reached. Please check if the domain is correct and the site is online.")
  | JsError.generic msg =>
      if jsIncludes msg "Received invalid JSON from AI model" then
        (500, "The AI model returned an unexpected response. Please try again.")
      else
        (500, "An unknown error occurred while analyzing the URL.")

/-- The error taxonomy of spec section 7, with the JS error shape each
kind produces in this handler. -/
inductive AnalysisError where
  | invalidURL
  | fetchRejected (status : Nat)
  | fetchUnreachable
  | fetchTimeout
  | modelUnavailable (message : String)
  | malformedModelResponse
deriving Repr, DecidableEq

/-- The endpoint response for each error kind: `invalidURL` is the early
400 return before the try block; every other kind flows through the
catch block with the error shape its source produces. -/
def endpointErrorResponse : AnalysisError → Nat × String
  | AnalysisError.invalidURL => (400, "The provided URL format is invalid.")
  | AnalysisError.fetchRejected s => catchResponse (JsError.axiosResponse s)
  | AnalysisError.fetchUnreachable => catchResponse JsError.axiosNoResponse
  | AnalysisError.fetchTimeout => catchResponse JsError.axiosNoResponse
  | AnalysisError.modelUnavailable msg => catchResponse (JsError.generic msg)
  | AnalysisError.malformedModelResponse =>
      catchResponse (JsError.generic "Received invalid JSON from AI model.")

end AnalyzeServer

/-! ### The /api/bookmarks POST handler (guide server.js embedded after
hooks/useBookmarkGrid.ts) — title and description extraction -/

namespace BookmarksServer

/-- The cheerio query results the POST handler reads from the fetched
page.  `text()` of an absent element is the empty string; `attr` of an
absent element is `undefined` (`none`).  `articleParagraphs` is `some`
of the paragraph texts (document order) of the first article element
when one exists, `none` when the page has no article element; likewise
`mainParagraphs`.  `bodyParagraphs` carries the paragraph texts under
body: the page has them, but this handler never consults them. -/
structure ScrapedPage where
  ogTitle : Option String
  titleText : String
  h1FirstText : String
  ogDescription : Option String
  metaDescription : Option String
  articleParagraphs : Option (List String)
  mainParagraphs : Option (List String)
  bodyParagraphs : List String
  ogImage : Option String
deriving Repr, DecidableEq

/-- `extractedTitle`: og:title content, else title text, else first h1
text (each step skipped when falsy). -/
def extractTitle (page : ScrapedPage) : String :=
  AIBookmark.jsOrOpt page.ogTitle (AIBookmark.jsOrStr page.titleText page.h1FirstText)

/-- The meta-description chain: og:description content, else standard
meta description content, else the empty string. -/
def metaChain (page : ScrapedPage) : String :=
  AIBookmark.jsOrOpt page.ogDescription (AIBookmark.jsOrOpt page.metaDescription "")

/-- The paragraph container chosen by
`$(article).first().length ? $(article).first() : $(main).first()`,
guarded by `if (mainContentEl.length)`: the first article when one
exists, else the first main when one exists, else nothing. -/
def scrapeSource (page : ScrapedPage) : Option (List String) :=
  match page.articleParagraphs with
  | some ps => some ps
  | none => page.mainParagraphs

/-- The paragraph accumulation loop: append each trimmed paragraph plus
a space as long as the text gathered so far is below 350 characters. -/
def gatherParagraphs (ps : List String) : String :=
  ps.foldl (fun acc p =>
    if acc.length < 350 then acc ++ AIBookmark.jsTrim p ++ " " else acc) ""

/-- `extractedDescription` with its fallback: when the meta chain has
fewer than 10 words, scrape the chosen container's paragraphs; keep the
scrape only when it is non-blank. -/
def extractDescription (page : ScrapedPage) : String :=
  let d0 := metaChain page
  if AIBookmark.jsWordCount d0 < 10 then
    let contentText :=
      match scrapeSource page with
      | some ps => gatherParagraphs ps
      | none => ""
    if AIBookmark.jsTrim contentText ≠ "" then AIBookmark.jsTrim contentText else d0
  else d0

/-- One plus the length of the longest trimmed paragraph (zero for no
paragraphs); bounds the overshoot of one gathering step. -/
def maxStep (ps : List String) : Nat :=
  ps.foldr (fun p m => max ((AIBookmark.jsTrim p).length + 1) m) 0

end BookmarksServer

/-! ### AddBookmarkForm.handleSubmit — URL normalization -/

namespace AddForm

/-- The normalization of the submitted URL: trim, then prefix https
when neither scheme prefix is present (performed after the regex
acceptance check, which does not alter the string). -/
def normalizeSubmittedUrl (raw : String) : String :=
  let trimmedUrl := AIBookmark.jsTrim raw
  if AIBookmark.jsStartsWith trimmedUrl "http://" || AIBookmark.jsStartsWith trimmedUrl "https://" then
    trimmedUrl
  else "https://" ++ trimmedUrl

/-- The bookmark `handleSubmit` hands to `onAddBookmark`: the analysis
spread, with the url field explicitly overridden by the normalized URL
(`url: validUrl`), plus fresh id and createdAt. -/
def submittedBookmark (raw : String) (analysis : AIBookmark.AnalysisResult)
    (id createdAt : String) : AIBookmark.Bookmark :=
  { id := id
    url := normalizeSubmittedUrl raw
    title := analysis.title
    description := analysis.description
    imageUrl := analysis.imageUrl
    tags := analysis.tags
    notes := none
    createdAt := createdAt
    openInIframe := some analysis.openInIframe
    status := none }

end AddForm

/-! ### LocalApp.addBookmark — pending insert and rollback -/

namespace LocalApp

/-- The placeholder inserted at the head of the list when the add
starts; `pendingId` models the template string pending- followed by
`Date.now()`. -/
def pendingBookmark (pendingId url createdAt : String) : AIBookmark.Bookmark :=
  { id := pendingId
    url := url
    title := "Analyzing URL..."
    description := "The AI is summarizing this page. This card will update automatically."
    imageUrl := "https://picsum.photos/seed/" ++ AIBookmark.encodeURIComponent url ++ "/600/400"
    tags := []
    notes := none
    createdAt := createdAt
    openInIframe := none
    status := some "pending" }

/-- The stored list after `addBookmark`, together with the rethrown
error when the analysis failed. -/
structure AddOutcome where
  bookmarks : List AIBookmark.Bookmark
  error : Option String
deriving Repr, DecidableEq

/-- `LocalApp.addBookmark`: insert the pending placeholder at the head;
on analysis success replace it (matching by id) with the finished
bookmark; on failure filter it out again and rethrow the error. -/
def addBookmark (prev : List AIBookmark.Bookmark) (pendingId pendingCreatedAt url : String)
    (analysisOutcome : Except String AIBookmark.AnalysisResult)
    (newId newCreatedAt : String) : AddOutcome :=
  let afterInsert := pendingBookmark pendingId url pendingCreatedAt :: prev
  match analysisOutcome with
  | Except.ok analysis =>
      let newBookmark : AIBookmark.Bookmark :=
        { id := newId
          url := analysis.url
          title := analysis.title
          description := analysis.description
          imageUrl := analysis.imageUrl
          tags := analysis.tags
          notes := some ""
          createdAt := newCreatedAt
          openInIframe := some analysis.openInIframe
          status := none }
      { bookmarks := afterInsert.map (fun b => if b.id = pendingId then newBookmark else b)
        error := none }
  | Except.error e =>
      { bookmarks := afterInsert.filter (fun b => b.id ≠ pendingId)
        error := some e }

end LocalApp

end AIBookmark


namespace AIBookmark

/-! ## Claim theorems -/

/-- C1 (counterexample): the claim says the client-side fallback chain
never fails because a final mock strategy catches every failure.  In the
code the mock fires only when no API key is configured; with a key
present and both the backend and the direct frontend Gemini call
failing, `analyzeUrl` rethrows instead of returning a mock result. -/
theorem analyzeUrl_never_fails_cex :
    analyzeUrl false 0 "https://example.com"
      (Except.error "fetch failed") (Except.error "boom")
      = Except.error ("Frontend analysis failed: boom") := rfl

/-- C1 (amended): when no API key is configured (`useMock = true`) the
chain returns the mock result, which satisfies the section-3 invariants;
when a key is present and both the backend strategy and the direct-model
strategy fail, `analyzeUrl` fails with the wrapped frontend error
instead of degrading to the mock. -/
theorem analyzeUrl_mock_gate :
    ∀ (url : String) (seed : Nat),
      (∀ b f, analyzeUrl true seed url b f = Except.ok (createMockResponse url seed))
      ∧ resultInvariants (createMockResponse url seed)
      ∧ (∀ e1 e2, analyzeUrl false seed url (Except.error e1) (Except.error e2)
          = Except.error ("Frontend analysis failed: " ++ e2)) := by
  intro url seed
  refine ⟨fun b f => rfl, ?_, fun e1 e2 => rfl⟩
  have htitle : (createMockResponse url seed).title = "Mock Title for " ++ url := rfl
  have hdesc : (createMockResponse url seed).description
      = "This is a mock description generated because the Gemini API key is not available. The AI would normally generate a detailed summary here." := rfl
  have htags : (createMockResponse url seed).tags = ["mock", "sample-data", "placeholder"] := rfl
  have himg : (createMockResponse url seed).imageUrl
      = ("https://picsum.photos/seed/" ++ toString seed) ++ "/600/400" := rfl
  refine ⟨?_, ?_, ?_, ?_, ?_, ?_, Or.inr ?_⟩
  · rw [htitle]; exact append_ne_empty_left _ _ (by decide)
  · rw [hdesc]; decide
  · rw [htags]; decide
  · rw [htags]; decide
  · rw [htags]; decide
  · rw [htags]; decide
  · rw [himg]
    exact jsStartsWith_append _ _ _ (jsStartsWith_append _ _ _ (by decide))

/-- C2 (counterexample): the claim says the validator lowercases,
dedupes and caps the tags, so that the model tags A, a, B become a, b.
The handler's result assembly passes the parsed tags through verbatim:
the output is still A, a, B. -/
theorem validator_tags_cex :
    (AnalyzeServer.assembleResult "https://example.com"
        { title := "T", description := "D",
          imageUrl := "https://img.example.com/i.png", tags := ["A", "a", "B"] }
        [] true).tags = ["A", "a", "B"]
    ∧ (AnalyzeServer.assembleResult "https://example.com"
        { title := "T", description := "D",
          imageUrl := "https://img.example.com/i.png", tags := ["A", "a", "B"] }
        [] true).tags ≠ ["a", "b"] := ⟨rfl, by decide⟩

/-- C2 (amended): neither the analyze-url handler nor the frontend
fallback normalizes tags at all: both return the model-supplied tags
array verbatim — no lowercasing, trimming, de-duplication, cap, or
host-derived synthesis happens. -/
theorem validator_tags_passthrough :
    ∀ (url : String) (parsed : AnalyzeServer.ParsedModel) (imgs : List String)
      (ifr : Bool) (p : ParsedFrontend),
      (AnalyzeServer.assembleResult url parsed imgs ifr).tags = parsed.tags
      ∧ ∃ r, callFrontendGemini url (Except.ok p) = Except.ok r ∧ r.tags = p.tags := by
  intro url parsed imgs ifr p
  exact ⟨rfl, _, rfl, rfl⟩

/-- C3 (counterexample): the claim says only a frame-ancestors directive
that is exactly a quoted none or a quoted self blocks embedding.  The
handler tests substring containment, so the CSP whose frame-ancestors
directive value is a quoted self followed by a host — not exactly either
literal — is still classified as blocked. -/
theorem classifier_csp_cex :
    AnalyzeServer.classifyEmbeddability none
      (some (AnalyzeServer.faSelf ++ " https://example.com")) = false
    ∧ AnalyzeServer.specFrameAncestorsValue (AnalyzeServer.faSelf ++ " https://example.com")
        = some (sq ++ "self" ++ sq ++ " https://example.com")
    ∧ sq ++ "self" ++ sq ++ " https://example.com" ≠ sq ++ "none" ++ sq
    ∧ sq ++ "self" ++ sq ++ " https://example.com" ≠ sq ++ "self" ++ sq := by
  exact ⟨by decide, by decide, by decide, by decide⟩

/-- C3 (amended): the classifier allows embedding by default, blocks
exactly when the upper-cased frame-options value equals DENY or
SAMEORIGIN, blocks exactly when the content-security-policy value
contains the substring frame-ancestors-quoted-none or
frame-ancestors-quoted-self, and the two header checks combine
conjunctively — no other header affects the result. -/
theorem classify_false_iff (xfo csp : Option String) :
    AnalyzeServer.classifyEmbeddability xfo csp = false
      ↔ ((xfo.map jsToUpper).getD "" = "DENY" ∨ (xfo.map jsToUpper).getD "" = "SAMEORIGIN"
         ∨ jsIncludes (csp.getD "") AnalyzeServer.faNone = true
         ∨ jsIncludes (csp.getD "") AnalyzeServer.faSelf = true) := by
  show (let xfo' := (xfo.map jsToUpper).getD ""
        let csp' := csp.getD ""
        let o1 := if xfo' = "DENY" ∨ xfo' = "SAMEORIGIN" then false else true
        if jsIncludes csp' AnalyzeServer.faNone || jsIncludes csp' AnalyzeServer.faSelf
          then false else o1) = false ↔ _
  simp only []
  split
  · simp_all [Bool.or_eq_true]
  · split
    · simp_all [Bool.or_eq_true]
    · simp_all [Bool.or_eq_true]

theorem classifier_characterization :
    AnalyzeServer.classifyEmbeddability none none = true
    ∧ (∀ x, AnalyzeServer.classifyEmbeddability (some x) none = false
        ↔ (jsToUpper x = "DENY" ∨ jsToUpper x = "SAMEORIGIN"))
    ∧ (∀ c, AnalyzeServer.classifyEmbeddability none (some c) = false
        ↔ (jsIncludes c AnalyzeServer.faNone = true ∨ jsIncludes c AnalyzeServer.faSelf = true))
    ∧ (∀ x c, AnalyzeServer.classifyEmbeddability (some x) (some c)
        = (AnalyzeServer.classifyEmbeddability (some x) none
           && AnalyzeServer.classifyEmbeddability none (some c))) := by
  have hN : jsIncludes "" AnalyzeServer.faNone = false := by decide
  have hS : jsIncludes "" AnalyzeServer.faSelf = false := by decide
  refine ⟨by decide, fun x => ?_, fun c => ?_, fun x c => ?_⟩
  · rw [classify_false_iff]
    simp [hN, hS]
  · rw [classify_false_iff]
    simp
  · have key : ∀ a b : Bool, (a = false ↔ b = false) → a = b := by decide
    apply key
    rw [classify_false_iff, Bool.and_eq_false_iff, classify_false_iff, classify_false_iff]
    simp [hN, hS]
    tauto

end AIBookmark

namespace AIBookmark

/-- C4 (counterexample): the claim says any received HTTP response —
including 403/404/500 — still yields a RawPage.  Under axios's default
validateStatus the handler's GET rejects on a 404, and the catch block
turns it into a 400 error response, so no page reaches extraction. -/
theorem fetch_http_error_cex :
    AnalyzeServer.axiosGet (AnalyzeServer.NetOutcome.response 404 none none "<html>err</html>")
      = Except.error (AnalyzeServer.JsError.axiosResponse 404)
    ∧ (AnalyzeServer.catchResponse (AnalyzeServer.JsError.axiosResponse 404)).1 = 400 := by
  exact ⟨rfl, rfl⟩

/-- C4 (amended): the handler configures a fixed 10000 ms timeout; a
timeout or connection failure rejects with a no-response error (the
handler cannot tell a timeout apart from an unreachable host); a
received response yields a RawPage only for a 2xx status, and every
non-2xx status rejects with a response-carrying error instead of
producing a RawPage. -/
theorem fetch_stage_behaviour :
    AnalyzeServer.fetchTimeoutMs = 10000
    ∧ AnalyzeServer.axiosGet AnalyzeServer.NetOutcome.timeout
        = Except.error AnalyzeServer.JsError.axiosNoResponse
    ∧ AnalyzeServer.axiosGet AnalyzeServer.NetOutcome.noResponse
        = Except.error AnalyzeServer.JsError.axiosNoResponse
    ∧ (∀ s xfo csp html, 200 ≤ s → s < 300 →
        AnalyzeServer.axiosGet (AnalyzeServer.NetOutcome.response s xfo csp html)
          = Except.ok (s, (xfo, csp), html))
    ∧ (∀ s xfo csp html, ¬(200 ≤ s ∧ s < 300) →
        AnalyzeServer.axiosGet (AnalyzeServer.NetOutcome.response s xfo csp html)
          = Except.error (AnalyzeServer.JsError.axiosResponse s)) := by
  refine ⟨rfl, rfl, rfl, fun s xfo csp html h1 h2 => ?_, fun s xfo csp html h => ?_⟩
  · simp [AnalyzeServer.axiosGet, h1, h2]
  · simp [AnalyzeServer.axiosGet, h]

/-- C4 (witness): the amended fetch-stage theorem applied at a 204
response and at a 404 response. -/
theorem fetch_stage_behaviour_witness :
    AnalyzeServer.axiosGet (AnalyzeServer.NetOutcome.response 204 none none "")
      = Except.ok (204, (none, none), "")
    ∧ AnalyzeServer.axiosGet (AnalyzeServer.NetOutcome.response 500 none none "oops")
      = Except.error (AnalyzeServer.JsError.axiosResponse 500) :=
  ⟨fetch_stage_behaviour.2.2.2.1 204 none none "" (by decide) (by decide),
   fetch_stage_behaviour.2.2.2.2 500 none none "oops" (by decide)⟩

end AIBookmark

namespace AIBookmark

set_option maxRecDepth 10000 in
/-- C5 (counterexample): the claim says the scraped description never
exceeds the 350-character cap and that the scrape falls back to the full
body when no article or main region exists.  A single 400-character
paragraph inside an article yields a 400-character description (the
threshold only gates whether another paragraph is appended), and a page
with body paragraphs but no article or main region is never scraped —
the short meta description is kept. -/
theorem extract_description_cex :
    (BookmarksServer.extractDescription
        { ogTitle := none, titleText := "", h1FirstText := "", ogDescription := none,
          metaDescription := none,
          articleParagraphs := some [String.mk (List.replicate 400 'a')],
          mainParagraphs := none, bodyParagraphs := [], ogImage := none }).length = 400
    ∧ ¬((400 : Nat) ≤ 350)
    ∧ BookmarksServer.extractDescription
        { ogTitle := none, titleText := "", h1FirstText := "", ogDescription := none,
          metaDescription := none, articleParagraphs := none, mainParagraphs := none,
          bodyParagraphs := ["A long body paragraph that the claim says should be scraped."],
          ogImage := none } = "" := by
  refine ⟨?_, by decide, rfl⟩
  rfl

theorem extractDescription_eq (page : BookmarksServer.ScrapedPage) :
    BookmarksServer.extractDescription page
      = if jsWordCount (BookmarksServer.metaChain page) < 10 then
          (let contentText :=
            match BookmarksServer.scrapeSource page with
            | some ps => BookmarksServer.gatherParagraphs ps
            | none => ""
           if jsTrim contentText ≠ "" then jsTrim contentText
           else BookmarksServer.metaChain page)
        else BookmarksServer.metaChain page := rfl

theorem gather_fold_length (ps : List String) (acc : String) :
    (ps.foldl (fun acc p => if acc.length < 350 then acc ++ jsTrim p ++ " " else acc) acc).length
      ≤ max acc.length (349 + BookmarksServer.maxStep ps) := by
  induction ps generalizing acc with
  | nil => simp
  | cons p ps ih =>
      have hstep : BookmarksServer.maxStep (p :: ps)
          = max ((jsTrim p).length + 1) (BookmarksServer.maxStep ps) := rfl
      rw [List.foldl_cons]
      by_cases h : acc.length < 350
      · rw [if_pos h]
        have hlen : (acc ++ jsTrim p ++ " ").length = acc.length + ((jsTrim p).length + 1) := by
          rw [str_length_append, str_length_append]
          have hsp : (" " : String).length = 1 := rfl
          omega
        have h2 := ih (acc ++ jsTrim p ++ " ")
        rw [hlen] at h2
        refine le_trans h2 (max_le ?_ ?_)
        · refine le_trans ?_ (le_max_right _ _)
          rw [hstep]
          have ha : acc.length ≤ 349 := by omega
          calc acc.length + ((jsTrim p).length + 1)
              ≤ 349 + ((jsTrim p).length + 1) := by omega
            _ ≤ 349 + max ((jsTrim p).length + 1) (BookmarksServer.maxStep ps) :=
                Nat.add_le_add_left (le_max_left _ _) 349
        · refine le_trans ?_ (le_max_right _ _)
          rw [hstep]
          exact Nat.add_le_add_left (le_max_right _ _) 349
      · rw [if_neg h]
        refine le_trans (ih acc) (max_le (le_max_left _ _) ?_)
        refine le_trans ?_ (le_max_right _ _)
        rw [hstep]
        exact Nat.add_le_add_left (le_max_right _ _) 349

/-- C5 (amended): the paragraph-scrape fallback fires only when the meta
description chain has fewer than 10 words; it scrapes paragraphs of the
first article element, else the first main element, and does not fall
back to the body — with neither region present the meta chain is kept as
is.  Paragraphs are appended (trimmed, space-separated) only while the
accumulated text is shorter than 350 characters, so the result is not
capped at 350: it is bounded by 349 plus one more than the longest
trimmed paragraph of the scraped region. -/
theorem extract_description_behaviour :
    ∀ (page : BookmarksServer.ScrapedPage),
      (10 ≤ jsWordCount (BookmarksServer.metaChain page) →
        BookmarksServer.extractDescription page = BookmarksServer.metaChain page)
      ∧ (page.articleParagraphs = none → page.mainParagraphs = none →
        BookmarksServer.extractDescription page = BookmarksServer.metaChain page)
      ∧ (BookmarksServer.extractDescription page).length
          ≤ max (BookmarksServer.metaChain page).length
              (349 + BookmarksServer.maxStep ((BookmarksServer.scrapeSource page).getD [])) := by
  intro page
  refine ⟨fun h => ?_, fun h1 h2 => ?_, ?_⟩
  · rw [extractDescription_eq, if_neg (Nat.not_lt.mpr h)]
  · have hs : BookmarksServer.scrapeSource page = none := by
      simp [BookmarksServer.scrapeSource, h1, h2]
    rw [extractDescription_eq, hs]
    by_cases hww : jsWordCount (BookmarksServer.metaChain page) < 10
    · rw [if_pos hww]
      show (if jsTrim "" ≠ "" then jsTrim "" else BookmarksServer.metaChain page)
          = BookmarksServer.metaChain page
      rw [if_neg (by decide : ¬(jsTrim "" ≠ ""))]
    · rw [if_neg hww]
  · rw [extractDescription_eq]
    by_cases hww : jsWordCount (BookmarksServer.metaChain page) < 10
    · rw [if_pos hww]
      cases hsrc : BookmarksServer.scrapeSource page with
      | none =>
          show (if jsTrim "" ≠ "" then jsTrim "" else BookmarksServer.metaChain page).length ≤ _
          rw [if_neg (by decide : ¬(jsTrim "" ≠ ""))]
          exact le_max_left _ _
      | some ps =>
          show (if jsTrim (BookmarksServer.gatherParagraphs ps) ≠ ""
              then jsTrim (BookmarksServer.gatherParagraphs ps)
              else BookmarksServer.metaChain page).length ≤ _
          split
          · refine le_trans (jsTrim_length_le _) ?_
            refine le_trans (gather_fold_length ps "") ?_
            refine le_trans (max_le (Nat.zero_le _) (le_refl _)) ?_
            exact le_max_right _ _
          · exact le_max_left _ _
    · rw [if_neg hww]
      exact le_max_left _ _

/-- C5 (witness): the amended description theorem applied to a page
with a ten-word meta description (kept as is) and to a page with
neither an article nor a main region (meta chain kept). -/
theorem extract_description_behaviour_witness :
    BookmarksServer.extractDescription
        { ogTitle := none, titleText := "", h1FirstText := "",
          ogDescription := some "one two three four five six seven eight nine ten",
          metaDescription := none, articleParagraphs := some ["ignored paragraph"],
          mainParagraphs := none, bodyParagraphs := [], ogImage := none }
      = BookmarksServer.metaChain
        { ogTitle := none, titleText := "", h1FirstText := "",
          ogDescription := some "one two three four five six seven eight nine ten",
          metaDescription := none, articleParagraphs := some ["ignored paragraph"],
          mainParagraphs := none, bodyParagraphs := [], ogImage := none }
    ∧ BookmarksServer.extractDescription
        { ogTitle := none, titleText := "", h1FirstText := "",
          ogDescription := some "short", metaDescription := none,
          articleParagraphs := none, mainParagraphs := none,
          bodyParagraphs := ["unseen"], ogImage := none }
      = BookmarksServer.metaChain
        { ogTitle := none, titleText := "", h1FirstText := "",
          ogDescription := some "short", metaDescription := none,
          articleParagraphs := none, mainParagraphs := none,
          bodyParagraphs := ["unseen"], ogImage := none } :=
  ⟨(extract_description_behaviour _).1 (by decide),
   (extract_description_behaviour _).2.1 rfl rfl⟩

end AIBookmark

namespace AIBookmark

/-- C6 (counterexample): the claim says the title resolution ends in the
literal Untitled.  For a page with no og:title, an empty title element
and no heading, the handler's extracted title is the empty string — no
Untitled fallback exists in the code. -/
theorem extract_title_cex :
    BookmarksServer.extractTitle
      { ogTitle := none, titleText := "", h1FirstText := "", ogDescription := none,
        metaDescription := none, articleParagraphs := none, mainParagraphs := none,
        bodyParagraphs := [], ogImage := none } = ""
    ∧ ("" : String) ≠ "Untitled" := ⟨rfl, by decide⟩

/-- C6 (amended): the extracted title is the first truthy value of
og:title content, title text, first h1 text — and when all three are
falsy it is the empty string, not the literal Untitled.  In particular a
non-empty og:title value is returned verbatim. -/
theorem extract_title_resolution :
    ∀ (page : BookmarksServer.ScrapedPage) (t : String),
      (page.ogTitle = some t → t ≠ "" → BookmarksServer.extractTitle page = t)
      ∧ ((page.ogTitle = none ∨ page.ogTitle = some "") → page.titleText ≠ "" →
          BookmarksServer.extractTitle page = page.titleText)
      ∧ ((page.ogTitle = none ∨ page.ogTitle = some "") → page.titleText = "" →
          BookmarksServer.extractTitle page = page.h1FirstText) := by
  intro page t
  refine ⟨fun h ht => ?_, fun h ht => ?_, fun h ht => ?_⟩
  · simp [BookmarksServer.extractTitle, jsOrOpt, jsOrStr, h, ht]
  · rcases h with h | h <;> simp [BookmarksServer.extractTitle, jsOrOpt, jsOrStr, h, ht]
  · rcases h with h | h <;> simp [BookmarksServer.extractTitle, jsOrOpt, jsOrStr, h, ht]

/-- C6 (witness): the amended title theorem applied to the spec's
Widgets-Inc scenario page and to a page falling back to the title
element. -/
theorem extract_title_resolution_witness :
    BookmarksServer.extractTitle
      { ogTitle := some "Widgets Inc", titleText := "", h1FirstText := "",
        ogDescription := none, metaDescription := none, articleParagraphs := none,
        mainParagraphs := none, bodyParagraphs := [], ogImage := none } = "Widgets Inc"
    ∧ BookmarksServer.extractTitle
      { ogTitle := none, titleText := "Fallback Title", h1FirstText := "H",
        ogDescription := none, metaDescription := none, articleParagraphs := none,
        mainParagraphs := none, bodyParagraphs := [], ogImage := none } = "Fallback Title" :=
  ⟨(extract_title_resolution _ "Widgets Inc").1 rfl (by decide),
   (extract_title_resolution _ "").2.1 (Or.inl rfl) (by decide)⟩

/-- C7 (code bug): the claim — and the surrounding code's own intent of
returning null to ignore invalid URLs and filtering falsy results — says
a failed or absent image URL is silently dropped.  But when the og:image
attribute is absent, `toAbsoluteUrl` receives undefined, takes the falsy
guard, and immediately calls startsWith on undefined: a TypeError that
aborts the whole analysis (caught as a 500).  With both social images
present, a src whose resolution fails is indeed silently dropped. -/
theorem collect_images_crash :
    (∀ (resolveRef : String → String → Option String) (url : String)
        (twitterImage : Option String) (imgSrcs : List (Option String)),
      AnalyzeServer.collectImageUrls resolveRef url none twitterImage imgSrcs
        = Except.error ())
    ∧ AnalyzeServer.collectImageUrls (fun _ _ => none) "https://example.com"
        (some "https://example.com/og.png") (some "https://example.com/tw.png")
        [some "bad^url", some "data:image/png;base64,AAAA", some "/img/a.png"]
        = Except.ok ["https://example.com/og.png", "https://example.com/tw.png"] := by
  exact ⟨fun resolveRef url tw srcs => rfl, rfl⟩

/-- C8: the endpoint's error translation — invalid URL, unreachable
host and upstream-rejected fetch each yield a 4xx JSON error body (the
rejected case quoting the upstream status inside the message), model
unavailability and a malformed model response each yield a 5xx JSON
error body, and no error kind yields a 2xx status. -/
theorem endpoint_error_statuses :
    (∀ e, ¬(200 ≤ (AnalyzeServer.endpointErrorResponse e).1
            ∧ (AnalyzeServer.endpointErrorResponse e).1 < 300))
    ∧ (∀ e, (e = AnalyzeServer.AnalysisError.invalidURL
          ∨ e = AnalyzeServer.AnalysisError.fetchUnreachable
          ∨ (∃ s, e = AnalyzeServer.AnalysisError.fetchRejected s)) →
        400 ≤ (AnalyzeServer.endpointErrorResponse e).1
          ∧ (AnalyzeServer.endpointErrorResponse e).1 < 500)
    ∧ (∀ e, (e = AnalyzeServer.AnalysisError.malformedModelResponse
          ∨ (∃ m, e = AnalyzeServer.AnalysisError.modelUnavailable m)) →
        500 ≤ (AnalyzeServer.endpointErrorResponse e).1
          ∧ (AnalyzeServer.endpointErrorResponse e).1 < 600)
    ∧ (∀ s, jsIncludes
        (AnalyzeServer.endpointErrorResponse (AnalyzeServer.AnalysisError.fetchRejected s)).2
        (toString s) = true) := by
  refine ⟨fun e => ?_, fun e h => ?_, fun e h => ?_, fun s => ?_⟩
  · cases e <;>
      simp [AnalyzeServer.endpointErrorResponse, AnalyzeServer.catchResponse] <;>
      split <;> omega
  · rcases h with h | h | ⟨s, h⟩ <;> subst h <;>
      simp [AnalyzeServer.endpointErrorResponse, AnalyzeServer.catchResponse]
  · rcases h with h | ⟨m, h⟩ <;> subst h <;>
      simp [AnalyzeServer.endpointErrorResponse, AnalyzeServer.catchResponse] <;>
      split <;> omega
  · show jsIncludes
      (("Could not access this URL. The server responded with status: " ++ toString s)
        ++ ". The page may be private or no longer exist.") (toString s) = true
    unfold jsIncludes
    rw [infixCheck_iff]
    refine ⟨"Could not access this URL. The server responded with status: ".data,
      ". The page may be private or no longer exist.".data, ?_⟩
    rw [str_data_append, str_data_append]

/-- C8 (witness): the status-class theorem applied at the invalid-URL
kind (client error) and the malformed-model-response kind (server
error). -/
theorem endpoint_error_statuses_witness :
    (400 ≤ (AnalyzeServer.endpointErrorResponse AnalyzeServer.AnalysisError.invalidURL).1
      ∧ (AnalyzeServer.endpointErrorResponse AnalyzeServer.AnalysisError.invalidURL).1 < 500)
    ∧ (500 ≤ (AnalyzeServer.endpointErrorResponse
          AnalyzeServer.AnalysisError.malformedModelResponse).1
      ∧ (AnalyzeServer.endpointErrorResponse
          AnalyzeServer.AnalysisError.malformedModelResponse).1 < 600) :=
  ⟨endpoint_error_statuses.2.1 _ (Or.inl rfl),
   endpoint_error_statuses.2.2.1 _ (Or.inl rfl)⟩

end AIBookmark

namespace AIBookmark

/-- C9: for any submitted URL string accepted by the form, when the
trimmed input lacks both scheme prefixes the https scheme is prefixed
before analysis and the stored bookmark's url field is exactly that
normalized form (the form overrides the analysis url); when a scheme is
already present the trimmed input is kept unchanged. -/
theorem submitted_url_normalized :
    ∀ (raw : String) (analysis : AnalysisResult) (id createdAt : String),
      (jsStartsWith (jsTrim raw) "http://" = false →
        jsStartsWith (jsTrim raw) "https://" = false →
        (AddForm.submittedBookmark raw analysis id createdAt).url = "https://" ++ jsTrim raw)
      ∧ ((jsStartsWith (jsTrim raw) "http://" = true ∨ jsStartsWith (jsTrim raw) "https://" = true) →
        (AddForm.submittedBookmark raw analysis id createdAt).url = jsTrim raw) := by
  intro raw analysis id createdAt
  constructor
  · intro h1 h2
    simp [AddForm.submittedBookmark, AddForm.normalizeSubmittedUrl, h1, h2]
  · intro h
    rcases h with h | h <;> simp [AddForm.submittedBookmark, AddForm.normalizeSubmittedUrl, h]

/-- C9 (witness): the normalization theorem applied to the spec's
bare-domain scenario input, yielding the https-prefixed URL. -/
theorem submitted_url_normalized_witness :
    (AddForm.submittedBookmark "example.com"
        { url := "https://example.com", title := "T", description := "D",
          imageUrl := "https://img.example.com/i.png", tags := ["t"], openInIframe := true }
        "id-1" "2024-01-01T00:00:00Z").url = "https://" ++ jsTrim "example.com" :=
  (submitted_url_normalized "example.com"
    { url := "https://example.com", title := "T", description := "D",
      imageUrl := "https://img.example.com/i.png", tags := ["t"], openInIframe := true }
    "id-1" "2024-01-01T00:00:00Z").1 (by decide) (by decide)

/-- C10: adding a bookmark in local mode is atomic — the pending
placeholder is inserted at the head, and when the analysis fails it is
removed again and the error rethrown, so (provided the fresh pending id
does not collide with an existing id, which the Date-derived id
guarantees in practice) the stored list after a failed add is exactly
the list from before the call. -/
theorem local_add_rollback :
    ∀ (prev : List Bookmark) (pendingId pendingCreatedAt url e newId newCreatedAt : String),
      (∀ b ∈ prev, b.id ≠ pendingId) →
      LocalApp.addBookmark prev pendingId pendingCreatedAt url (Except.error e) newId newCreatedAt
        = { bookmarks := prev, error := some e } := by
  intro prev pendingId pendingCreatedAt url e newId newCreatedAt h
  simp only [LocalApp.addBookmark, LocalApp.AddOutcome.mk.injEq]
  refine ⟨?_, trivial⟩
  rw [List.filter_cons]
  have hp : (decide ((LocalApp.pendingBookmark pendingId url pendingCreatedAt).id ≠ pendingId))
      = false := by
    simp [LocalApp.pendingBookmark]
  rw [hp]
  simp only [Bool.false_eq_true, if_false]
  exact List.filter_eq_self.mpr (fun b hb => by simp [h b hb])

/-- A concrete stored bookmark used to witness the rollback theorem. -/
def sampleStoredBookmark : Bookmark :=
  { id := "2024-01-01T00:00:00Z0.5", url := "https://old.example.com", title := "Old",
    description := "Old entry", imageUrl := "https://img.example.com/old.png",
    tags := ["old"], notes := some "", createdAt := "2024-01-01T00:00:00Z",
    openInIframe := some true, status := none }

/-- C10 (witness): the rollback theorem applied to a concrete one-element
stored list and a failing analysis: the list is unchanged and the error
is rethrown. -/
theorem local_add_rollback_witness :
    LocalApp.addBookmark [sampleStoredBookmark]
      "pending-1700000000000" "2024-01-02T00:00:00Z" "https://new.example.com"
      (Except.error "Frontend analysis failed: boom") "id-9" "2024-01-02T00:00:01Z"
      = { bookmarks := [sampleStoredBookmark],
          error := some "Frontend analysis failed: boom" } :=
  local_add_rollback _ _ _ _ _ _ _ (by decide)

end AIBookmark
